import Mathlib

/-!
Verification of the pagination and reading-time core of the
`ignite-challenge-five-create-project-blog` repository.

The embedding follows the three source files:
* `src/pages/post/[slug].tsx` — post page: `totalWords` / `readTime`
  (reading-time estimator), the previous/next pagination resolver in
  `getStaticProps`, and the `last_publication_date` mapping;
* the home page — the listing aggregator: `handleNextPosts`, the
  accumulated `posts` state and the `nextPage` cursor, and the load-more
  button gated on cursor truthiness.

JavaScript strings are `String`, `null`/`undefined` is `Option`, a thrown
exception is the `Except.error` branch, and React component state is
threaded through `ExceptT FetchError (StateM HomeState)`.
-/

set_option autoImplicit false

namespace Blog

/-! ## Data model: post content -/

/-- One rich-text span of a content block body (`{ text: string }`). -/
structure Span where
  text : String
deriving DecidableEq, Repr

/-- One content block of a post (`{ heading: string; body: { text: string }[] }`). -/
structure ContentBlock where
  heading : String
  body : List Span
deriving DecidableEq, Repr

/-- The `data` object of a post page post, as it can be at runtime:
every field may be `undefined`. -/
structure PostData where
  title : Option String
  author : Option String
  bannerUrl : Option String
  content : Option (List ContentBlock)
deriving DecidableEq, Repr

/-- A post page post at runtime; during Next.js fallback rendering the
whole `post` prop is `undefined`, which the callers model with
`Option Post`. -/
structure Post where
  first_publication_date : Option String
  last_publication_date : Option String
  data : Option PostData
deriving DecidableEq, Repr

/-! ## Reading-time estimator -/

/-- JavaScript `s.split(' ')` on a list of characters: splits at every
single space, keeping empty pieces; the empty string yields `[""]`. -/
def splitSpAux : List Char → List Char → List String
  | [], acc => [String.mk acc.reverse]
  | c :: cs, acc =>
    if c = ' ' then String.mk acc.reverse :: splitSpAux cs []
    else splitSpAux cs (c :: acc)

/-- JavaScript `String.prototype.split(' ')`, as used by the source on
headings and on the rendered body text. -/
def jsSplit (s : String) : List String :=
  splitSpAux s.data []

/-- Modelled from the spec: plain-text rendering of a rich-text body
(`RichText.asText` from the external `prismic-dom` library, which is not
part of this repository). Per the spec the rendering is the span texts
concatenated (§4.2: "rich-text spans concatenated"; §9: the core only
requires a pure `bodyToPlainText(spans) -> string`). -/
def asText (body : List Span) : String :=
  String.join (body.map Span.text)

/-- The `totalWords` accumulator of the post page:

```js
post?.data?.content.reduce((total, content) => {
  if (content.heading) { total.push(...content.heading.split(' ')) }
  const wordsContent = RichText.asText(content.body).split(' ');
  total.push(...wordsContent);
  return total;
}, [])
```

Heading tokens are pushed only when the heading is truthy (non-empty);
body tokens are always pushed. -/
def totalWords (content : List ContentBlock) : List String :=
  content.foldl
    (fun total c =>
      (if c.heading ≠ "" then total ++ jsSplit c.heading else total)
        ++ jsSplit (asText c.body))
    []

/-- The reading-time estimate of the post page:
`Math.ceil(totalWords.length / 200)`, on a defined token list. -/
def readTime (content : List ContentBlock) : Nat :=
  ((totalWords content).length + 199) / 200

/-- The tokens one content block contributes to `totalWords`: heading
tokens when the heading is truthy, then the body tokens. -/
def blockTokens (c : ContentBlock) : List String :=
  (if c.heading ≠ "" then jsSplit c.heading else []) ++ jsSplit (asText c.body)

/-- Modelled from the spec (§4.2): the per-block token counts — heading
tokens only when the heading is non-empty, body tokens always — summed
across all blocks in order into a single total. -/
def specTotal (content : List ContentBlock) : Nat :=
  (content.map (fun c =>
    (if c.heading ≠ "" then (jsSplit c.heading).length else 0)
      + (jsSplit (asText c.body)).length)).sum

/-- Modelled from the spec (§4.2): reading time = ceiling(total / 200). -/
def specEstimate (content : List ContentBlock) : Nat :=
  ⌈(specTotal content : ℚ) / 200⌉₊

/-! ## Reading-time computation as executed by JavaScript, including the
`undefined` cases -/

/-- JavaScript evaluation of `post?.data?.content.reduce(..., [])`.
Optional chaining short-circuits to `undefined` when `post` or
`post.data` is nullish, but when both are present and `content` itself is
`undefined`, `.reduce` is called on `undefined` and a `TypeError` is
thrown (there is no `?.` between `content` and `.reduce`). -/
def totalWordsJS (post : Option Post) : Except String (Option (List String)) :=
  match post with
  | none => .ok none
  | some p =>
    match p.data with
    | none => .ok none
    | some d =>
      match d.content with
      | none => .error "TypeError: cannot read reduce of undefined"
      | some content => .ok (some (totalWords content))

/-- Evaluation of `Math.ceil(totalWords?.length / 200)`: `undefined` propagates to `NaN`
(`none`); a defined token list gives the natural-number ceiling. -/
def readTimeJS : Option (List String) → Option Nat
  | none => none
  | some l => some ((l.length + 199) / 200)

/-- The clock slot of the rendered page:
`readTime ? readTime + " min" : 'Tempo de leitura'` — `NaN` and `0` are
falsy and fall back to the placeholder. -/
def clockSlot : Option Nat → String
  | none => "Tempo de leitura"
  | some 0 => "Tempo de leitura"
  | some (n + 1) => toString (n + 1) ++ " min"

/-- The whole reading-time pipeline of the post page, from the `post`
prop to the rendered clock slot; `Except.error` is a thrown `TypeError`. -/
def clockSlotJS (post : Option Post) : Except String String :=
  (totalWordsJS post).map (fun tw => clockSlot (readTimeJS tw))

/-! ## Listing aggregator (home page) -/

/-- The `data` of a home page post summary. -/
structure PostSummaryData where
  title : String
  subtitle : String
  author : String
deriving DecidableEq, Repr

/-- One post summary of the home page listing (the home page `Post`
interface: `uid` optional, `first_publication_date` nullable). -/
structure PostSummary where
  uid : Option String
  first_publication_date : Option String
  data : PostSummaryData
deriving DecidableEq, Repr

/-- Error raised by the content-fetch adapter on transport or
malformed-response problems. -/
structure FetchError where
  message : String
deriving DecidableEq, Repr

/-- A page returned by the paged query: `results` plus the `next_page`
cursor (`null` when no more pages exist). -/
structure FetchPage where
  results : List PostSummary
  next_page : Option String
deriving DecidableEq, Repr

/-- The home page component state: the accumulated `posts` sequence and
the `nextPage` cursor. -/
structure HomeState where
  posts : List PostSummary
  nextPage : Option String
deriving DecidableEq, Repr

/-- The JS template literal `` `${nextPage}` ``: `null` renders as the
string `"null"`. -/
def urlOf : Option String → String
  | none => "null"
  | some u => u

/-- The field-by-field reconstruction applied to each fetched summary in
`handleNextPosts` (`postsResponse.results.map(post => ({...}))`). -/
def mapSummary (post : PostSummary) : PostSummary :=
  { uid := post.uid
    first_publication_date := post.first_publication_date
    data := { title := post.data.title
              subtitle := post.data.subtitle
              author := post.data.author } }

/-- The `handleNextPosts` handler of the home page:

```js
const postsResponse = await fetch(`${nextPage}`).then(r => r.json());
const addNewPosts = postsResponse.results.map(post => ({...}));
setPosts([...posts, ...addNewPosts]);
setNextPage(postsResponse.next_page);
```

The fetch is the single point of suspension; a rejected fetch aborts the
handler before any state update. `posts` and `nextPage` are the closure
values captured at call start. -/
def handleNextPosts (fetchJson : String → Except FetchError FetchPage) :
    ExceptT FetchError (StateM HomeState) Unit := do
  let s ← get
  let postsResponse ← ExceptT.mk (pure (fetchJson (urlOf s.nextPage)))
  let addNewPosts := postsResponse.results.map mapSummary
  modify fun st => { st with posts := s.posts ++ addNewPosts }
  modify fun st => { st with nextPage := postsResponse.next_page }

/-- One `handleNextPosts` invocation run on a concrete component state:
returns the outcome (a `FetchError` or unit) and the state after the
call. -/
def runNext (fetchJson : String → Except FetchError FetchPage) (s : HomeState) :
    Except FetchError Unit × HomeState :=
  ((handleNextPosts fetchJson).run).run s

/-- Truthiness of the `nextPage` cursor as tested by the home page render
(`{nextPage && <button ...>}`): `null` and the empty string are falsy. -/
def loadMoreVisible (s : HomeState) : Bool :=
  match s.nextPage with
  | none => false
  | some u => decide (u ≠ "")

/-- A user click of the load-more button in state `s`, producing state
`s'`: possible only when the button is rendered. -/
def ClickStep (fetchJson : String → Except FetchError FetchPage)
    (s s' : HomeState) : Prop :=
  loadMoreVisible s = true ∧ (runNext fetchJson s).2 = s'

/-- A fetch adapter that always fails, e.g. with the network down. -/
def failingFetch : String → Except FetchError FetchPage :=
  fun _ => .error ⟨"network error"⟩

/-- A concrete summary used to instantiate the aggregator theorems. -/
def demoSummary (n : String) : PostSummary :=
  ⟨some n, some ("2021-01-0" ++ n), ⟨"title " ++ n, "subtitle " ++ n, "author " ++ n⟩⟩

/-- A mock adapter serving page `[p1, p2]` at cursor `c1` with next
cursor `c2`, then page `[p3]` at `c2` with no further cursor. -/
def twoPageFetch : String → Except FetchError FetchPage := fun u =>
  if u = "c1" then .ok ⟨[demoSummary "1", demoSummary "2"], some "c2"⟩
  else if u = "c2" then .ok ⟨[demoSummary "3"], none⟩
  else .error ⟨"404"⟩

/-! ## Pagination resolver (post page `getStaticProps`) -/

/-- The options of a paged query as issued by the pagination resolver. -/
structure QueryOptions where
  pageSize : Nat
  after : String
  orderings : String
deriving DecidableEq, Repr

/-- The `data` of a returned document, as read by the resolver. -/
structure ApiDocData where
  title : String
deriving DecidableEq, Repr

/-- A document returned by a pagination query. -/
structure ApiDoc where
  uid : String
  data : ApiDocData
deriving DecidableEq, Repr

/-- One side of the pagination (`{ title, href }`). -/
structure PageLink where
  title : String
  href : String
deriving DecidableEq, Repr

/-- The `pagination` prop built by `getStaticProps`. -/
structure Pagination where
  nextPage : Option PageLink
  prevPage : Option PageLink
deriving DecidableEq, Repr

/-- The query for the next post: page size 1, positioned after the
current document, ascending publication order. -/
def nextQueryOptions (responseId : String) : QueryOptions :=
  ⟨1, responseId, "[document.first_publication_date]"⟩

/-- The query for the previous post: page size 1, positioned after the
current document, descending publication order. -/
def prevQueryOptions (responseId : String) : QueryOptions :=
  ⟨1, responseId, "[document.first_publication_date desc]"⟩

/-- The pagination resolver of `getStaticProps`: two independent
single-result queries; each side is the head of its result list, mapped
to `{ title, href }`, or `null` when the list is empty
(`nextPage ? {...} : null`). -/
def resolvePagination (query : QueryOptions → List ApiDoc)
    (responseId : String) : Pagination :=
  let nextPage := (query (nextQueryOptions responseId)).head?
  let prevPage := (query (prevQueryOptions responseId)).head?
  { nextPage := nextPage.map fun d => ⟨d.data.title, "/post/" ++ d.uid⟩
    prevPage := prevPage.map fun d => ⟨d.data.title, "/post/" ++ d.uid⟩ }

/-- A concrete adapter for a newest post: the ascending query finds
nothing, the descending query finds the older post. -/
def lastPostQuery : QueryOptions → List ApiDoc := fun opts =>
  if opts.orderings = "[document.first_publication_date desc]"
    then [⟨"older-post", ⟨"Older Post"⟩⟩] else []

/-! ## `last_publication_date` mapping (post page `getStaticProps`) -/

/-- The mapping of `getStaticProps`:

```js
last_publication_date:
  response.first_publication_date !== response.last_publication_date
    ? response.last_publication_date
    : null
```
-/
def mapLastPublicationDate (first last_pub : Option String) : Option String :=
  if first ≠ last_pub then last_pub else none

/-- JS truthiness of a nullable string: `null`/`undefined` and `""` are
falsy. -/
def truthyStr : Option String → Bool
  | none => false
  | some s => decide (s ≠ "")

/-- Whether the `* editado em ...` marker is rendered:
`{post?.last_publication_date && <span ...>}`. -/
def lastEditShown (post : Option Post) : Bool :=
  match post with
  | none => false
  | some p => truthyStr p.last_publication_date

/-! ## Estimator lemmas -/

theorem totalWords_step (total : List String) (c : ContentBlock) :
    ((if c.heading ≠ "" then total ++ jsSplit c.heading else total)
        ++ jsSplit (asText c.body))
      = total ++ blockTokens c := by
  by_cases h : c.heading = "" <;> simp [blockTokens, h]

theorem foldl_append_flatten (g : ContentBlock → List String)
    (content : List ContentBlock) (acc : List String) :
    content.foldl (fun total c => total ++ g c) acc
      = acc ++ (content.map g).flatten := by
  induction content generalizing acc with
  | nil => simp
  | cons c cs ih =>
    simp only [List.foldl_cons, List.map_cons, List.flatten_cons]
    rw [ih, List.append_assoc]

theorem totalWords_eq (content : List ContentBlock) :
    totalWords content = (content.map blockTokens).flatten := by
  have hfun :
      (fun (total : List String) (c : ContentBlock) =>
          (if c.heading ≠ "" then total ++ jsSplit c.heading else total)
            ++ jsSplit (asText c.body))
        = fun total c => total ++ blockTokens c :=
    funext fun total => funext fun c => totalWords_step total c
  unfold totalWords
  rw [hfun, foldl_append_flatten, List.nil_append]

theorem totalWords_append (xs ys : List ContentBlock) :
    totalWords (xs ++ ys) = totalWords xs ++ totalWords ys := by
  simp [totalWords_eq]

/-- Ceiling arithmetic: `Math.ceil(n / 200)` on a non-negative integer agrees with the natural
number `(n + 199) / 200`. -/
theorem ceil_div_two_hundred (n : ℕ) : (n + 199) / 200 = ⌈(n : ℚ) / 200⌉₊ := by
  apply le_antisymm
  · have h1 : (n : ℚ) / 200 ≤ (⌈(n : ℚ) / 200⌉₊ : ℚ) := Nat.le_ceil _
    have h2 : (n : ℚ) ≤ (⌈(n : ℚ) / 200⌉₊ : ℚ) * 200 :=
      (div_le_iff₀ (by norm_num)).mp h1
    have h3 : n ≤ ⌈(n : ℚ) / 200⌉₊ * 200 := by exact_mod_cast h2
    exact (Nat.div_le_iff_le_mul_add_pred (by norm_num)).mpr (by omega)
  · have hdm := Nat.div_add_mod (n + 199) 200
    have hlt : (n + 199) % 200 < 200 := Nat.mod_lt _ (by norm_num)
    have h4 : n ≤ ((n + 199) / 200) * 200 := by omega
    exact Nat.ceil_le.mpr ((div_le_iff₀ (by norm_num)).mpr (by exact_mod_cast h4))

theorem totalWords_length (content : List ContentBlock) :
    (totalWords content).length = specTotal content := by
  rw [totalWords_eq, List.length_flatten, List.map_map, specTotal]
  have hfun : (List.length ∘ blockTokens)
      = fun c : ContentBlock =>
          (if c.heading ≠ "" then (jsSplit c.heading).length else 0)
            + (jsSplit (asText c.body)).length := by
    funext c
    by_cases h : c.heading = "" <;> simp [blockTokens, h]
  rw [hfun]

/-! ## Aggregator lemmas -/

/-- Computation law for one `handleNextPosts` call: a failed fetch leaves
the state exactly as it was; a successful fetch appends the mapped
results and stores the new cursor. -/
theorem runNext_eq (f : String → Except FetchError FetchPage) (s : HomeState) :
    runNext f s
      = match f (urlOf s.nextPage) with
        | .error e => (.error e, s)
        | .ok page =>
            (.ok (), { posts := s.posts ++ page.results.map mapSummary
                       nextPage := page.next_page }) := by
  cases h : f (urlOf s.nextPage) with
  | error e =>
    simp [runNext, handleNextPosts, ExceptT.run, ExceptT.mk, ExceptT.bind,
      ExceptT.bindCont, bind, StateT.bind, StateT.run, get, getThe,
      MonadStateOf.get, StateT.get, modify, modifyGet, MonadStateOf.modifyGet,
      StateT.modifyGet, pure, ExceptT.pure, StateT.pure, ExceptT.lift,
      monadLift, MonadLift.monadLift, liftM, Functor.map, StateT.map, Id.run, h]
  | ok page =>
    simp [runNext, handleNextPosts, ExceptT.run, ExceptT.mk, ExceptT.bind,
      ExceptT.bindCont, bind, StateT.bind, StateT.run, get, getThe,
      MonadStateOf.get, StateT.get, modify, modifyGet, MonadStateOf.modifyGet,
      StateT.modifyGet, pure, ExceptT.pure, StateT.pure, ExceptT.lift,
      monadLift, MonadLift.monadLift, liftM, Functor.map, StateT.map, Id.run, h]

/-- The field-by-field summary reconstruction is the identity. -/
theorem mapSummary_id (p : PostSummary) : mapSummary p = p := rfl

/-! ## Claim theorems -/

/-- C1: for every post whose content is a sequence of content blocks, the
computed reading time equals the ceiling of (total token count / 200),
where the total is accumulated by traversing the blocks in order, adding
the whitespace-split tokens of the heading only when it is non-empty and
always adding the whitespace-split tokens of the body rendered to plain
text. -/
theorem readTime_refines_spec (content : List ContentBlock) :
    (totalWords content).length = specTotal content
      ∧ readTime content = ⌈((totalWords content).length : ℚ) / 200⌉₊
      ∧ readTime content = specEstimate content := by
  refine ⟨totalWords_length content, ?_, ?_⟩
  · unfold readTime
    exact ceil_div_two_hundred _
  · unfold readTime specEstimate
    rw [← totalWords_length]
    exact ceil_div_two_hundred _

/-- C6: a content block whose body renders to the empty string still
contributes exactly one empty-string token to the total; empty tokens
from whitespace splitting are not filtered out. -/
theorem empty_body_one_empty_token (blocks : List ContentBlock) (b : ContentBlock)
    (h : asText b.body = "") :
    jsSplit (asText b.body) = [""]
      ∧ totalWords (blocks ++ [b])
          = totalWords blocks
              ++ ((if b.heading ≠ "" then jsSplit b.heading else []) ++ [""]) := by
  have hsplit : jsSplit (asText b.body) = [""] := by rw [h]; rfl
  refine ⟨hsplit, ?_⟩
  rw [totalWords_append]
  congr 1
  rw [totalWords_eq]
  simp only [List.map_cons, List.map_nil, List.flatten_cons, List.flatten_nil,
    List.append_nil, blockTokens, hsplit]

/-- Witness for C6 at a concrete input: appending a block with heading
`"T"` and empty body to a one-block list adds the heading token and one
empty token. -/
theorem empty_body_one_empty_token_witness :
    jsSplit (asText (⟨"T", []⟩ : ContentBlock).body) = [""]
      ∧ totalWords ([⟨"A B", [⟨"C D E"⟩]⟩] ++ [(⟨"T", []⟩ : ContentBlock)])
          = totalWords [⟨"A B", [⟨"C D E"⟩]⟩]
              ++ ((if (⟨"T", []⟩ : ContentBlock).heading ≠ ""
                    then jsSplit (⟨"T", []⟩ : ContentBlock).heading else []) ++ [""]) :=
  empty_body_one_empty_token [⟨"A B", [⟨"C D E"⟩]⟩] ⟨"T", []⟩ (by rfl)

/-- C7: the reading-time estimate is non-negative, and appending a block
never decreases the total word count or the estimate. -/
theorem estimate_nonneg_monotone (blocks : List ContentBlock) (b : ContentBlock) :
    0 ≤ readTime blocks
      ∧ (totalWords blocks).length ≤ (totalWords (blocks ++ [b])).length
      ∧ readTime blocks ≤ readTime (blocks ++ [b]) := by
  have hlen : (totalWords (blocks ++ [b])).length
      = (totalWords blocks).length + (totalWords [b]).length := by
    rw [totalWords_append, List.length_append]
  refine ⟨Nat.zero_le _, by omega, ?_⟩
  unfold readTime
  exact Nat.div_le_div_right (by omega)

set_option maxRecDepth 4000 in
/-- C9: the concrete reference values of the estimator: empty content
yields 0; heading `"A B"` with body `"C D E"` yields 5 tokens and
estimate 1; 201 single-word body tokens with no headings yield 2. -/
theorem estimator_reference_values :
    readTime [] = 0
      ∧ (totalWords [⟨"A B", [⟨"C D E"⟩]⟩]).length = 5
      ∧ readTime [⟨"A B", [⟨"C D E"⟩]⟩] = 1
      ∧ readTime (List.replicate 201 ⟨"", [⟨"x"⟩]⟩) = 2 :=
  ⟨by decide, by decide, by decide, by decide⟩

/-- C2: a `FetchError` raised mid-`handleNextPosts` leaves the stored
summary sequence (indeed the whole component state) exactly as it was
before the call: no partial append, no mutation on error. -/
theorem fetch_error_leaves_posts_unchanged
    (f : String → Except FetchError FetchPage) (s : HomeState) (e : FetchError)
    (h : f (urlOf s.nextPage) = .error e) :
    (runNext f s).2.posts = s.posts
      ∧ (runNext f s).1 = .error e
      ∧ (runNext f s).2 = s := by
  rw [runNext_eq, h]
  exact ⟨rfl, rfl, rfl⟩

/-- Witness for C2: a failing adapter leaves an empty accumulated
sequence empty. -/
theorem fetch_error_leaves_posts_unchanged_witness :
    (runNext failingFetch ⟨[], some "https://api/page2"⟩).2.posts = []
      ∧ (runNext failingFetch ⟨[], some "https://api/page2"⟩).1
          = .error ⟨"network error"⟩
      ∧ (runNext failingFetch ⟨[], some "https://api/page2"⟩).2
          = ⟨[], some "https://api/page2"⟩ :=
  fetch_error_leaves_posts_unchanged failingFetch
    ⟨[], some "https://api/page2"⟩ ⟨"network error"⟩ rfl

/-- C5: on success the fetched summaries are appended after the existing
sequence, preserving the prior sequence and the fetch order, with no
re-ordering and no de-duplication; two sequential successful calls
returning pages `[p1, p2]` then `[p3]` with cursors `c1 → c2 → null`
yield `[p1, p2, p3]` in that exact order. -/
theorem loadmore_appends_in_order :
    (∀ (f : String → Except FetchError FetchPage) (s : HomeState)
        (page : FetchPage), f (urlOf s.nextPage) = .ok page →
          (runNext f s).2.posts = s.posts ++ page.results.map mapSummary
            ∧ (runNext f s).2.nextPage = page.next_page
            ∧ (runNext f s).1 = .ok ())
      ∧ (∀ (f : String → Except FetchError FetchPage)
          (p1 p2 p3 : PostSummary) (c1 c2 : String),
          f c1 = .ok ⟨[p1, p2], some c2⟩ → f c2 = .ok ⟨[p3], none⟩ →
            (runNext f (runNext f ⟨[], some c1⟩).2).2.posts = [p1, p2, p3]
              ∧ (runNext f (runNext f ⟨[], some c1⟩).2).2.nextPage = none) := by
  constructor
  · intro f s page h
    rw [runNext_eq, h]
    exact ⟨rfl, rfl, rfl⟩
  · intro f p1 p2 p3 c1 c2 h1 h2
    have hs1 : (runNext f ⟨[], some c1⟩).2 = ⟨[p1, p2], some c2⟩ := by
      simp [runNext_eq, urlOf, h1, mapSummary_id]
    rw [hs1]
    simp [runNext_eq, urlOf, h2, mapSummary_id]

/-- Witness for C5 with the concrete mock adapter `twoPageFetch`. -/
theorem loadmore_appends_in_order_witness :
    (runNext twoPageFetch (runNext twoPageFetch ⟨[], some "c1"⟩).2).2.posts
        = [demoSummary "1", demoSummary "2", demoSummary "3"]
      ∧ (runNext twoPageFetch (runNext twoPageFetch ⟨[], some "c1"⟩).2).2.nextPage
          = none :=
  loadmore_appends_in_order.2 twoPageFetch
    (demoSummary "1") (demoSummary "2") (demoSummary "3") "c1" "c2" rfl rfl

/-- C8: in every state with a null cursor the load-more button is not
rendered, so no further `handleNextPosts` call can be issued by a click. -/
theorem no_loadmore_after_null_cursor (s : HomeState) (h : s.nextPage = none) :
    loadMoreVisible s = false
      ∧ ∀ (f : String → Except FetchError FetchPage) (s' : HomeState),
          ¬ ClickStep f s s' := by
  have hv : loadMoreVisible s = false := by simp [loadMoreVisible, h]
  exact ⟨hv, fun f s' hc => by rw [hc.1] at hv; cases hv⟩

/-- Witness for C8 at the exhausted state with no accumulated posts. -/
theorem no_loadmore_after_null_cursor_witness :
    loadMoreVisible ⟨[], none⟩ = false
      ∧ ¬ ClickStep failingFetch ⟨[], none⟩ ⟨[], none⟩ :=
  ⟨(no_loadmore_after_null_cursor ⟨[], none⟩ rfl).1,
   (no_loadmore_after_null_cursor ⟨[], none⟩ rfl).2 failingFetch ⟨[], none⟩⟩

/-- C3 counterexample: a post whose `data` is present but whose `content`
field is undefined makes the computation throw a `TypeError` instead of
yielding a placeholder — `post?.data?.content.reduce` has no optional
chaining between `content` and `.reduce`. -/
theorem content_undefined_raises :
    clockSlotJS (some ⟨none, none, some ⟨some "t", some "a", none, none⟩⟩)
      = .error "TypeError: cannot read reduce of undefined" := rfl

/-- C3 (amended): when the post itself or its `data` is
missing/undefined, the reading-time computation does not raise — the
optional chaining yields `undefined`, the estimate is `NaN`, and the
rendered clock slot falls back to the placeholder. -/
theorem missing_post_graceful (post : Option Post)
    (h : post.bind Post.data = none) :
    totalWordsJS post = .ok none
      ∧ clockSlotJS post = .ok "Tempo de leitura" := by
  match post with
  | none => exact ⟨rfl, rfl⟩
  | some p =>
    have hd : p.data = none := by simpa using h
    refine ⟨?_, ?_⟩ <;>
      simp [totalWordsJS, clockSlotJS, hd, readTimeJS, clockSlot, Except.map]

/-- Witness for the amended C3 at the fallback-render input `undefined`. -/
theorem missing_post_graceful_witness :
    totalWordsJS none = .ok none
      ∧ clockSlotJS none = .ok "Tempo de leitura" :=
  missing_post_graceful none rfl

/-- C4: the pagination resolver issues two independent single-result
queries positioned after the current post, ascending for next and
descending for previous; each side is absent exactly when its query
returns no document, a present side is derived from the document's title
and uid, and a post with no successor keeps its previous side populated. -/
theorem pagination_resolver_correct (query : QueryOptions → List ApiDoc)
    (responseId : String) :
    ((nextQueryOptions responseId).pageSize = 1
        ∧ (nextQueryOptions responseId).after = responseId
        ∧ (nextQueryOptions responseId).orderings
            = "[document.first_publication_date]")
      ∧ ((prevQueryOptions responseId).pageSize = 1
        ∧ (prevQueryOptions responseId).after = responseId
        ∧ (prevQueryOptions responseId).orderings
            = "[document.first_publication_date desc]")
      ∧ ((resolvePagination query responseId).nextPage = none
          ↔ query (nextQueryOptions responseId) = [])
      ∧ ((resolvePagination query responseId).prevPage = none
          ↔ query (prevQueryOptions responseId) = [])
      ∧ (∀ (d : ApiDoc) (rest : List ApiDoc),
          query (nextQueryOptions responseId) = d :: rest →
            (resolvePagination query responseId).nextPage
              = some ⟨d.data.title, "/post/" ++ d.uid⟩)
      ∧ (∀ (d : ApiDoc) (rest : List ApiDoc),
          query (prevQueryOptions responseId) = d :: rest →
            (resolvePagination query responseId).prevPage
              = some ⟨d.data.title, "/post/" ++ d.uid⟩)
      ∧ (query (nextQueryOptions responseId) = [] →
          (resolvePagination query responseId).nextPage = none
            ∧ ∀ (d : ApiDoc) (rest : List ApiDoc),
                query (prevQueryOptions responseId) = d :: rest →
                  (resolvePagination query responseId).prevPage
                    = some ⟨d.data.title, "/post/" ++ d.uid⟩) := by
  refine ⟨⟨rfl, rfl, rfl⟩, ⟨rfl, rfl, rfl⟩, ?_, ?_, ?_, ?_, ?_⟩
  · cases h : query (nextQueryOptions responseId) <;>
      simp [resolvePagination, h]
  · cases h : query (prevQueryOptions responseId) <;>
      simp [resolvePagination, h]
  · intro d rest h
    simp [resolvePagination, h]
  · intro d rest h
    simp [resolvePagination, h]
  · intro hempty
    refine ⟨by simp [resolvePagination, hempty], ?_⟩
    intro d rest h
    simp [resolvePagination, h]

/-- Witness for C4: for the newest post, next is absent while previous is
populated from the older document. -/
theorem pagination_resolver_correct_witness :
    (resolvePagination lastPostQuery "docid").nextPage = none
      ∧ (resolvePagination lastPostQuery "docid").prevPage
          = some ⟨"Older Post", "/post/older-post"⟩ :=
  ⟨((pagination_resolver_correct lastPostQuery "docid").2.2.2.2.2.2 rfl).1,
   ((pagination_resolver_correct lastPostQuery "docid").2.2.2.2.2.2 rfl).2
     ⟨"older-post", ⟨"Older Post"⟩⟩ [] rfl⟩

/-- C10: the static-props mapping exposes `last_publication_date` as null
exactly when it equals `first_publication_date`, passing it through
unchanged otherwise; hence the edited-at marker is shown only when the
two publication dates differ. -/
theorem last_publication_date_mapping (first last_pub : Option String) :
    mapLastPublicationDate first last_pub
        = (if first = last_pub then none else last_pub)
      ∧ (first = last_pub → mapLastPublicationDate first last_pub = none)
      ∧ (first ≠ last_pub → mapLastPublicationDate first last_pub = last_pub)
      ∧ (∀ (d : Option PostData),
          lastEditShown (some ⟨first, mapLastPublicationDate first last_pub, d⟩)
              = true
            → first ≠ last_pub) := by
  by_cases h : first = last_pub <;>
    simp [mapLastPublicationDate, lastEditShown, truthyStr, h]

/-- Witness for C10 on a post edited the day after publication. -/
theorem last_publication_date_mapping_witness :
    mapLastPublicationDate (some "2021-03-01") (some "2021-03-02")
        = some "2021-03-02"
      ∧ ((some "2021-03-01" : Option String) ≠ some "2021-03-02") :=
  ⟨(last_publication_date_mapping (some "2021-03-01") (some "2021-03-02")).2.2.1
     (by decide),
   (last_publication_date_mapping (some "2021-03-01") (some "2021-03-02")).2.2.2
     none (by decide)⟩

end Blog
